import Mathlib

/-!
Verification of the distributed-training helper module
`src/models/vision/detection/awsdet/utils/runner/dist_utils.py`.

The module is glue code over an external distributed runtime (herring, bound
as `hr`) and the accelerator configuration API of the deep-learning framework
(bound as `tf`).  We embed it shallowly: the runtime's process-identity
scalars become a record `DistRuntime`, every externally visible side effect
(device configuration calls, prints, collective-communication calls) becomes
a constructor of an `Event` type, and each Python function becomes a Lean
function returning its result together with the list of events it emits, in
order.  A Python exception (the unguarded list indexing in `init_dist`)
is modelled with `Option PyError`.
-/

/-- Process-identity scalars owned by the external distributed runtime:
global rank, local rank, global size, local size.  The embedding passes the
current runtime state to each call, so every call reads the current values
(no caching). -/
structure DistRuntime where
  rank : Nat
  local_rank : Nat
  size : Nat
  local_size : Nat
deriving DecidableEq, Repr

namespace tf

/-- Element dtype tag of a framework tensor. -/
inductive DType where
  | float32
  | int32
deriving DecidableEq, Repr

/-- A scalar framework tensor: a value together with its dtype tag.  The only
tensor this module builds is the exact constant 0, so no floating-point
arithmetic is involved and the value is carried as an integer. -/
structure Tensor where
  value : Int
  dtype : DType
deriving DecidableEq, Repr

/-- Embedding of tf.constant, building a scalar constant tensor. -/
def constant (v : Int) (dtype : DType) : Tensor := ⟨v, dtype⟩

end tf

/-- Externally visible side effects the module can perform, in the order they
occur.  Device ids are natural numbers standing for the enumerated physical
accelerators. -/
inductive Event where
  | setMemoryGrowth (gpu : Nat) (enable : Bool)
  | setVisibleDevices (gpu : Nat)
  | print (msg : String)
  | oobAllreduce (t : tf.Tensor)
  | broadcastVariables (vars : List Int) (rootRank : Nat)
  | dedicatedBarrier
deriving DecidableEq, Repr

/-- Whether an event is a collective-communication primitive of the
distributed runtime (all-reduce, variable broadcast, or a dedicated barrier
primitive). -/
def Event.isCollective : Event → Bool
  | .oobAllreduce _ => true
  | .broadcastVariables _ _ => true
  | .dedicatedBarrier => true
  | _ => false

/-- Whether an event is a dedicated barrier primitive of the runtime. -/
def Event.isDedicatedBarrier : Event → Bool
  | .dedicatedBarrier => true
  | _ => false

/-- Whether an event is a device-visibility configuration call. -/
def Event.isSetVisibleDevices : Event → Bool
  | .setVisibleDevices _ => true
  | _ => false

/-- Whether an event is a memory-growth configuration call. -/
def Event.isSetMemoryGrowth : Event → Bool
  | .setMemoryGrowth _ _ => true
  | _ => false

/-- The Python exception raised by the unguarded indexing in init_dist. -/
inductive PyError where
  | indexError
deriving DecidableEq, Repr

namespace hr

/-- Embedding of hr.rank(): the global rank reported by the runtime. -/
def rank (rt : DistRuntime) : Nat := rt.rank

/-- Embedding of hr.local_rank(): the local rank reported by the runtime. -/
def local_rank (rt : DistRuntime) : Nat := rt.local_rank

/-- Embedding of hr.size(): the global size reported by the runtime. -/
def size (rt : DistRuntime) : Nat := rt.size

/-- Embedding of hr.local_size(): the local size reported by the runtime. -/
def local_size (rt : DistRuntime) : Nat := rt.local_size

/-- Embedding of hr.DistributedGradientTape: the runtime's wrapper around a
single-process gradient tape.  The wrapped tape is carried unchanged. -/
structure DistributedGradientTape (τ : Type) where
  tape : τ
deriving DecidableEq, Repr

end hr

/-- The semantics the external runtime gives to the value returned by its
out-of-band all-reduce.  The module never inspects this value, so it is kept
abstract as a parameter. -/
structure HerringOps where
  allreduceResult : tf.Tensor → tf.Tensor

/-- Embedding of hr.oob_allreduce: one collective all-reduce event on the
given tensor, returning whatever combined value the runtime produces. -/
def hr.oob_allreduce (ops : HerringOps) (t : tf.Tensor) : tf.Tensor × List Event :=
  (ops.allreduceResult t, [Event.oobAllreduce t])

/-- Embedding of init_dist.  The enumerated device list `gpus` is the result
of tf.config.experimental.list_physical_devices; the loop enables memory
growth on each device, and when the list is non-empty the process's visible
devices are restricted to `gpus[hr.local_rank()]`.  That indexing is
unguarded: an out-of-range local rank raises IndexError after the growth
calls have already happened. -/
def init_dist (rt : DistRuntime) (gpus : List Nat) : List Event × Option PyError :=
  let growth := gpus.map fun gpu => Event.setMemoryGrowth gpu true
  if gpus.isEmpty then (growth, none)
  else
    match gpus[hr.local_rank rt]? with
    | some gpu => (growth ++ [Event.setVisibleDevices gpu], none)
    | none => (growth, some PyError.indexError)

/-- Embedding of get_dist_info: the 4-tuple
(hr.rank(), hr.local_rank(), hr.size(), hr.local_size()). -/
def get_dist_info (rt : DistRuntime) : Nat × Nat × Nat × Nat :=
  (hr.rank rt, hr.local_rank rt, hr.size rt, hr.local_size rt)

/-- Embedding of master_only.  The wrapped function takes its whole argument
list as one value of type α (α = Unit models a zero-argument function) and
may raise, returning Except.error.  The wrapper destructures get_dist_info
and calls the function only when the global rank is 0; on other ranks the
call is suppressed and the wrapper returns Python None, modelled as
Except.ok Option.none.  The second component of the result records the
invocations of the wrapped function (the argument of each invocation), so
that invocation counts are observable. -/
def master_only {α β ε : Type} (rt : DistRuntime) (f : α → Except ε β) :
    α → Except ε (Option β) × List α :=
  fun args =>
    match get_dist_info rt with
    | (rank, _, _, _) =>
      if rank = 0 then ((f args).map some, [args]) else (Except.ok none, [])

/-- The runner passed to broadcast_weights: broadcast_weights reads its rank
attribute for the log message, and the commented-out broadcast calls would
have touched its model and optimizer variables. -/
structure Runner where
  rank : Nat
  modelVariables : List Int
  optimizerVariables : List Int
deriving DecidableEq, Repr

/-- Embedding of broadcast_weights: the two print calls.  Both
hr.broadcast_variables calls are commented out in the source, so no
collective event is produced and the runner is returned unchanged. -/
def broadcast_weights (runner : Runner) : Runner × List Event :=
  (runner,
    [Event.print ("Rank " ++ toString runner.rank ++ " broadcasting"),
     Event.print "Variable broadcast done."])

/-- Embedding of get_distributed_tape: applies the runtime's distributed
gradient-tape wrapper to the given tape and does nothing else. -/
def get_distributed_tape {τ : Type} (tape : τ) :
    hr.DistributedGradientTape τ × List Event :=
  (hr.DistributedGradientTape.mk tape, [])

/-- Embedding of get_barrier: one out-of-band all-reduce on the scalar
constant tf.constant(0, dtype=tf.float32). -/
def get_barrier (ops : HerringOps) : tf.Tensor × List Event :=
  hr.oob_allreduce ops (tf.constant 0 tf.DType.float32)

/-- Claim C1: for every wrapped function (zero-argument, α = Unit, or
argument-taking) and every argument, one call of the master_only wrapper
invokes the wrapped function exactly once when the runtime's global rank is
0, and zero times when it is non-zero. -/
theorem master_only_invocation_count {α β ε : Type} (rt : DistRuntime)
    (f : α → Except ε β) (args : α) :
    (master_only rt f args).2.length = if rt.rank = 0 then 1 else 0 := by
  unfold master_only get_dist_info hr.rank
  by_cases h : rt.rank = 0 <;> simp [h]

/-- Claim C2: broadcast_weights performs no collective-communication
primitive, leaves the runner (in particular its model variables and
optimizer variables) unchanged, and its only effect is its two log
messages. -/
theorem broadcast_weights_pure_logging (runner : Runner) :
    (broadcast_weights runner).1 = runner ∧
    (broadcast_weights runner).1.modelVariables = runner.modelVariables ∧
    (broadcast_weights runner).1.optimizerVariables = runner.optimizerVariables ∧
    (broadcast_weights runner).2 =
      [Event.print ("Rank " ++ toString runner.rank ++ " broadcasting"),
       Event.print "Variable broadcast done."] ∧
    (broadcast_weights runner).2.filter Event.isCollective = [] :=
  ⟨rfl, rfl, rfl, rfl, rfl⟩

/-- Claim C3: get_dist_info returns the 4-tuple (global rank, local rank,
global size, local size) of the runtime state passed to the call, each value
passed through unchanged; since the current runtime state is consulted at
every call, nothing is cached. -/
theorem get_dist_info_passthrough (rt : DistRuntime) :
    get_dist_info rt = (rt.rank, rt.local_rank, rt.size, rt.local_size) := rfl

/-- Claim C4: with an empty enumerated device list, init_dist emits no event
at all (in particular no device-visibility and no memory-growth
configuration call) and raises no error. -/
theorem init_dist_no_gpu_noop (rt : DistRuntime) :
    init_dist rt [] = ([], none) := rfl

/-- Claim C5: on a process whose global rank is non-zero, the master_only
wrapper returns Python None and raises no error, for every wrapped function
(including one that would raise) and every argument; the wrapped function is
never invoked. -/
theorem master_only_nonmaster_none {α β ε : Type} (rt : DistRuntime)
    (f : α → Except ε β) (args : α) (h : rt.rank ≠ 0) :
    master_only rt f args = (Except.ok none, []) := by
  unfold master_only get_dist_info hr.rank
  simp [h]

/-- Witness for claim C5 at rank 3 with a function that raises. -/
theorem master_only_nonmaster_none_witness :
    (DistRuntime.mk 3 0 4 4).rank ≠ 0 ∧
    master_only (DistRuntime.mk 3 0 4 4)
      (fun _ : Nat => (Except.error "boom" : Except String Nat)) 7 =
      (Except.ok none, []) :=
  ⟨by decide, master_only_nonmaster_none (DistRuntime.mk 3 0 4 4) _ 7 (by decide)⟩

/-- Claim C6: get_barrier performs exactly one collective operation, an
out-of-band all-reduce on the scalar float32 constant 0, and uses no
dedicated barrier primitive. -/
theorem get_barrier_single_collective (ops : HerringOps) :
    (get_barrier ops).2 = [Event.oobAllreduce (tf.constant 0 tf.DType.float32)] ∧
    ((get_barrier ops).2.countP fun e => e.isCollective) = 1 ∧
    ((get_barrier ops).2.countP fun e => e.isDedicatedBarrier) = 0 :=
  ⟨rfl, rfl, rfl⟩

/-- Claim C7 counterexample: with the non-empty device list [5] and local
rank 1, init_dist raises IndexError and performs no device-visibility
configuration call, so the claimed unconditional restriction to the device
at index local_rank() does not happen. -/
theorem init_dist_oob_counterexample :
    (init_dist (DistRuntime.mk 0 1 2 2) [5]).2 = some PyError.indexError ∧
    ((init_dist (DistRuntime.mk 0 1 2 2) [5]).1.filter Event.isSetVisibleDevices) = [] := by
  decide

/-- Claim C7 as amended: whenever the enumerated device list is non-empty
and local_rank() is a valid index into it, init_dist enables memory growth
on every enumerated device and then restricts the visible devices to the
single device at index local_rank(). -/
theorem init_dist_in_range_config (rt : DistRuntime) (gpus : List Nat) (g : Nat)
    (h : gpus[hr.local_rank rt]? = some g) :
    init_dist rt gpus =
      ((gpus.map fun gpu => Event.setMemoryGrowth gpu true) ++
        [Event.setVisibleDevices g], none) := by
  have hne : gpus.isEmpty = false := by
    cases gpus with
    | nil => simp at h
    | cons a l => rfl
  unfold init_dist
  simp [hne, h]

/-- Witness for the amended claim C7 at local rank 1 with two devices. -/
theorem init_dist_in_range_config_witness :
    ([7, 8][hr.local_rank (DistRuntime.mk 0 1 2 2)]? = some 8) ∧
    init_dist (DistRuntime.mk 0 1 2 2) [7, 8] =
      ([Event.setMemoryGrowth 7 true, Event.setMemoryGrowth 8 true,
        Event.setVisibleDevices 8], none) :=
  ⟨by decide, init_dist_in_range_config (DistRuntime.mk 0 1 2 2) [7, 8] 8 (by decide)⟩

/-- Claim C8: get_distributed_tape returns exactly the runtime's distributed
gradient-tape wrapper applied to the given tape (the tape itself carried
unchanged) and emits no event. -/
theorem get_distributed_tape_passthrough {τ : Type} (tape : τ) :
    get_distributed_tape tape = (hr.DistributedGradientTape.mk tape, []) := rfl

/-- Claim C9: on a non-empty device list, init_dist raises IndexError
exactly when local_rank() is out of range (after the memory-growth calls
have happened), and raises nothing when local_rank() is in range. -/
theorem init_dist_index_guard (rt : DistRuntime) (gpus : List Nat)
    (h : gpus ≠ []) :
    (gpus.length ≤ hr.local_rank rt →
      init_dist rt gpus =
        (gpus.map fun gpu => Event.setMemoryGrowth gpu true,
         some PyError.indexError)) ∧
    (hr.local_rank rt < gpus.length → (init_dist rt gpus).2 = none) := by
  have hne : gpus.isEmpty = false := by
    cases gpus with
    | nil => exact absurd rfl h
    | cons a l => rfl
  constructor
  · intro hle
    have hnone : gpus[hr.local_rank rt]? = none := by
      simp [List.getElem?_eq_none_iff, hle]
    unfold init_dist
    simp [hne, hnone]
  · intro hlt
    have hg : gpus[hr.local_rank rt]? = some (gpus.get ⟨hr.local_rank rt, hlt⟩) :=
      List.getElem?_eq_some.mpr ⟨hlt, rfl⟩
    unfold init_dist
    simp [hne, hg]

/-- Witness for claim C9: local rank 5 is out of range for two devices. -/
theorem init_dist_index_guard_witness :
    init_dist (DistRuntime.mk 0 5 1 1) [3, 4] =
      ([Event.setMemoryGrowth 3 true, Event.setMemoryGrowth 4 true],
       some PyError.indexError) :=
  (init_dist_index_guard (DistRuntime.mk 0 5 1 1) [3, 4] (by decide)).1 (by decide)

/-- Claim C10: on the process whose global rank is 0, the master_only
wrapper propagates exactly the wrapped function's outcome: its value if it
returns one, its error if it raises. -/
theorem master_only_master_propagates {α β ε : Type} (rt : DistRuntime)
    (f : α → Except ε β) (args : α) (h : rt.rank = 0) :
    (master_only rt f args).1 = (f args).map some := by
  unfold master_only get_dist_info hr.rank
  simp [h]

/-- Witness for claim C10 at rank 0 with a concrete function. -/
theorem master_only_master_propagates_witness :
    (DistRuntime.mk 0 0 1 1).rank = 0 ∧
    (master_only (DistRuntime.mk 0 0 1 1)
      (fun n : Nat => (Except.ok (n + 1) : Except String Nat)) 5).1 =
      Except.ok (some 6) :=
  ⟨rfl, master_only_master_propagates (DistRuntime.mk 0 0 1 1) _ 5 rfl⟩
